import Mathlib

/-!
Shallow embedding of the supply-chain sample chaincode
(packages/caliper-samples/src/contract/fabric/supply/go/supply.go) and of
the benchmark driver script appended to the same file.

The host runtime (the Fabric shim) is modelled as an explicit world state
plus oracles for the external rich-query and history engines.  The shim
keeps composite keys in a reserved namespace of their own (they are
prefixed with the byte 0x00, which simple keys may not start with), so the
key space is a sum of simple keys and composite keys.  The JSON library is
external; json.Marshal is injective on product records and json.Unmarshal
inverts it, so an encoded record is modelled by the record itself, and the
single sentinel byte 0x00 written under the index key, which is not valid
JSON, by a separate constructor on which unmarshalling fails.

GetState and PutState never fail on the primary model; initProductF makes
PutState failures explicit in order to settle what initProduct does when
the write of the index key fails, since the source discards the result of
that second PutState call (line 148).
-/

/-- A key of the world state: a simple key used directly by GetState and
PutState, or a composite key built by CreateCompositeKey from an index
name and a list of attribute values. -/
inductive Key where
  | simple (k : String)
  | composite (objectType : String) (attrs : List String)
deriving DecidableEq

/-- The product record, mirroring the Go struct and the JSON field tags
docType, puid, pname, ptype, owner. -/
structure product where
  objectType : String
  puid : String
  pname : String
  ptype : String
  owner : String
deriving DecidableEq

/-- A value stored in the world state: the json.Marshal encoding of a
product record, or the single sentinel byte 0x00 written under the
composite index key. -/
inductive StateVal where
  | json (p : product)
  | sentinel
deriving DecidableEq

/-- A non-nil response payload: raw stored bytes returned by readProduct,
or a byte buffer assembled by the query and history handlers. -/
inductive Payload where
  | stored (v : StateVal)
  | text (s : String)
deriving DecidableEq

/-- pb.Response as produced through shim.Success and shim.Error;
shim.Success(nil) is success none. -/
inductive Response where
  | success (payload : Option Payload)
  | error (msg : String)
deriving DecidableEq

/-- One row of the history iterator returned by GetHistoryForKey.  The
value field holds the raw historic bytes; timestampStr is the rendering
of time.Unix(seconds, nanos).String(), kept opaque because the time
library is external. -/
structure HistEntry where
  txId : String
  value : String
  timestampStr : String
  isDelete : Bool
deriving DecidableEq

/-- The world state exposed by the shim. -/
abbrev WState := Key → Option StateVal

/-- The chaincode stub: the world state plus oracles for the external
rich-query engine (GetQueryResult, producing rows of key and raw record
bytes) and the history engine (GetHistoryForKey). -/
structure Stub where
  state : WState
  queryIter : String → Except String (List (String × String))
  histIter : String → Except String (List HistEntry)

/-- PutState on the reliable store: a point update of the world state. -/
def putState (k : Key) (v : StateVal) (st : WState) : WState :=
  fun q => if q = k then some v else st q

/-- PutState on a store whose writes can fail: pf gives the error message
a put of the given key fails with, if any; a failed put leaves the state
unchanged. -/
def putStateF (pf : Key → Option String) (k : Key) (v : StateVal) (st : WState) :
    Except String WState :=
  match pf k with
  | some e => Except.error e
  | none => Except.ok (putState k v st)

/-- Models strings.ToLower from the Go standard library: lower-case every
character.  It is written over the character list so that it evaluates by
reduction; String.toLower itself recurses over byte positions by
well-founded recursion and does not reduce definitionally. -/
def goToLower (s : String) : String := String.mk (s.data.map Char.toLower)

/-- initProduct (supply.go lines 88-152) over a store whose PutState can
fail.  The length check len(args) != 4 is rendered by the match; the
emptiness checks len(args[i]) <= 0 test for the empty string.  The dead
err check at lines 114-116 is omitted, since err is necessarily nil
there.  The Failed-to-get branch (lines 120-121) is absent because
GetState does not fail on the model store.  The result of the second
PutState (line 148, the composite index key) is discarded exactly as in
the source. -/
def initProductF (pf : Key → Option String) (stub : Stub) (args : List String) :
    Response × Stub :=
  match args with
  | [a0, a1, a2, a3] =>
    if a0 = "" then (Response.error "1st argument must be a non-empty string", stub)
    else if a1 = "" then (Response.error "2nd argument must be a non-empty string", stub)
    else if a2 = "" then (Response.error "3rd argument must be a non-empty string", stub)
    else if a3 = "" then (Response.error "4th argument must be a non-empty string", stub)
    else
      let productUID := a0
      let pname := goToLower a1
      let ptype := goToLower a2
      let owner := goToLower a3
      match stub.state (Key.simple productUID) with
      | some _ => (Response.error ("This product already exists: " ++ productUID), stub)
      | none =>
        let p : product := ⟨"product", productUID, pname, ptype, owner⟩
        match putStateF pf (Key.simple productUID) (StateVal.json p) stub.state with
        | Except.error e => (Response.error e, stub)
        | Except.ok st1 =>
          let colorNameIndexKey := Key.composite "type~name" [p.ptype, p.pname]
          let st2 :=
            match putStateF pf colorNameIndexKey StateVal.sentinel st1 with
            | Except.error _ => st1
            | Except.ok s => s
          (Response.success none, { stub with state := st2 })
  | _ => (Response.error "Incorrect number of arguments. Expecting 4", stub)

/-- initProduct on the reliable store: no put ever fails. -/
def initProduct (stub : Stub) (args : List String) : Response × Stub :=
  initProductF (fun _ => none) stub args

/-- readProduct, supply.go lines 154-173.  The Failed-to-get-state branch
(lines 164-166) is absent because GetState does not fail on the model
store. -/
def readProduct (stub : Stub) (args : List String) : Response × Stub :=
  match args with
  | [puid] =>
    match stub.state (Key.simple puid) with
    | none =>
        (Response.error ("\x7b\"Error\":\"Marble does not exist: " ++ puid ++ "\"\x7d"),
         stub)
    | some v => (Response.success (some (Payload.stored v)), stub)
  | _ =>
      (Response.error "Incorrect number of arguments. Expecting product ID of the product to query",
       stub)

/-- transferProduct, supply.go lines 175-207.  The arity check is a lower
bound, len(args) < 2, and there is no emptiness check on either argument.
json.Unmarshal fails on the sentinel byte, which is not valid JSON, with
the message of the Go json library. -/
def transferProduct (stub : Stub) (args : List String) : Response × Stub :=
  if args.length < 2 then
    (Response.error "Incorrect number of arguments. Expecting 2", stub)
  else
    let puid := args.getD 0 ""
    let newOwner := goToLower (args.getD 1 "")
    match stub.state (Key.simple puid) with
    | none => (Response.error "Product does not exist", stub)
    | some StateVal.sentinel =>
        (Response.error "invalid character looking for beginning of value", stub)
    | some (StateVal.json p) =>
        let p2 : product := { p with owner := newOwner }
        (Response.success none,
         { stub with state := putState (Key.simple puid) (StateVal.json p2) stub.state })

/-- One member of the JSON array assembled by getQueryResultForQueryString
(lines 256-264): the key quoted, the record bytes written as-is. -/
def queryRow (r : String × String) : String :=
  "\x7b\"Key\":\"" ++ r.1 ++ "\", \"Record\":" ++ r.2 ++ "\x7d"

/-- getQueryResultForQueryString, lines 232-272: run the external query
engine and join the rows into a JSON array, a comma before every member
but the first. -/
def getQueryResultForQueryString (stub : Stub) (queryString : String) :
    Except String String :=
  match stub.queryIter queryString with
  | Except.error e => Except.error e
  | Except.ok rows => Except.ok ("[" ++ String.intercalate "," (rows.map queryRow) ++ "]")

/-- queryProduct, lines 211-226.  The arity check is a lower bound,
len(args) < 1. -/
def queryProduct (stub : Stub) (args : List String) : Response × Stub :=
  if args.length < 1 then
    (Response.error "Incorrect number of arguments. Expecting 1", stub)
  else
    match getQueryResultForQueryString stub (args.getD 0 "") with
    | Except.error e => (Response.error e, stub)
    | Except.ok res => (Response.success (some (Payload.text res)), stub)

/-- One member of the history JSON array (lines 304-330): TxId and
Timestamp quoted, Value written as-is or null when the row is a delete,
IsDelete rendered by strconv.FormatBool and quoted. -/
def histRow (e : HistEntry) : String :=
  "\x7b\"TxId\":\"" ++ e.txId ++ "\", \"Value\":" ++
    (if e.isDelete then "null" else e.value) ++
    ", \"Timestamp\":\"" ++ e.timestampStr ++ "\", \"IsDelete\":\"" ++
    (if e.isDelete then "true" else "false") ++ "\"\x7d"

/-- getHistoryForProduct, lines 274-337.  The arity check is a lower
bound, len(args) < 1; failures of the iterator, per row in the source,
are folded into the oracle result. -/
def getHistoryForProduct (stub : Stub) (args : List String) : Response × Stub :=
  if args.length < 1 then
    (Response.error "Incorrect number of arguments. Expecting 1", stub)
  else
    match stub.histIter (args.getD 0 "") with
    | Except.error e => (Response.error e, stub)
    | Except.ok rows =>
        (Response.success (some (Payload.text
          ("[" ++ String.intercalate "," (rows.map histRow) ++ "]"))), stub)

/-- Invoke, lines 64-83: dispatch on the function name obtained from
GetFunctionAndParameters, modelled as an argument. -/
def Invoke (stub : Stub) (fn : String) (args : List String) : Response × Stub :=
  if fn = "initProduct" then initProduct stub args
  else if fn = "transferProduct" then transferProduct stub args
  else if fn = "readProduct" then readProduct stub args
  else if fn = "queryProduct" then queryProduct stub args
  else if fn = "getHistoryForProduct" then getHistoryForProduct stub args
  else (Response.error "Received unknown function invocation", stub)

/-- The fixed pool of product identifiers of the benchmark driver. -/
def ID : List String := ["1q2", "1w2", "a12", "dd4"]

/-- The fixed pool of owner names of the benchmark driver. -/
def owners : List String := ["Alice", "Bob", "Claire", "David"]

/-- The invocation record assembled by the driver for the fabric-ccp
adapter: a chaincode function name and positional arguments.  The other
adapter branch carries the same verb and field values under other
labels. -/
structure DriverArgs where
  chaincodeFunction : String
  chaincodeArguments : List String
deriving DecidableEq

/-- The invocation assembled by the n-th call of run() in the driver
script (lines 368-392 of the combined file): txIndex starts at 0 and is
incremented before use, so the n-th call sees txIndex = n; pid is
process.pid. -/
def runInvocation (n pid : Nat) : DriverArgs :=
  let productName := "product_" ++ toString n ++ "_" ++ toString pid
  let productID := ID.getD (n % ID.length) ""
  let productType := toString (((n % 10) + 1) * 10)
  let productOwner := owners.getD (n % owners.length) ""
  { chaincodeFunction := "initProduct",
    chaincodeArguments := [productID, productName, productType, productOwner] }

/-- A stub over the empty world state, with inert query and history
oracles. -/
def stub0 : Stub :=
  { state := fun _ => none,
    queryIter := fun _ => Except.ok [],
    histIter := fun _ => Except.ok [] }

/-- A concrete product record used in counterexamples and witnesses. -/
def pA : product :=
  { objectType := "product", puid := "p1", pname := "widget",
    ptype := "10", owner := "alice" }

/-- A stub holding the record pA under the simple key p1. -/
def stub1 : Stub :=
  { stub0 with state := putState (Key.simple "p1") (StateVal.json pA) stub0.state }

/-- A put-failure oracle that refuses exactly the composite index key of
a steel widget. -/
def pfIdx : Key → Option String :=
  fun k =>
    if k = Key.composite "type~name" ["steel", "widget"] then some "index write refused"
    else none

/-- Claim C1: after a successful initProduct with non-empty arguments,
readProduct on the same id succeeds and returns the stored JSON record
with docType product, puid exactly as supplied, and name, type and owner
lower-cased. -/
theorem C1_read_after_init (stub : Stub) (id name typ own : String)
    (hid : id ≠ "") (hname : name ≠ "") (htyp : typ ≠ "") (hown : own ≠ "")
    (hsucc : (initProduct stub [id, name, typ, own]).1 = Response.success none) :
    (readProduct (initProduct stub [id, name, typ, own]).2 [id]).1 =
      Response.success (some (Payload.stored (StateVal.json
        { objectType := "product", puid := id, pname := goToLower name,
          ptype := goToLower typ, owner := goToLower own }))) := by
  cases hstate : stub.state (Key.simple id) with
  | some v =>
      exfalso
      simp [initProduct, initProductF, hid, hname, htyp, hown, hstate] at hsucc
  | none =>
      simp [initProduct, initProductF, hid, hname, htyp, hown, hstate,
        putStateF, putState, readProduct]

/-- Witness for C1 at concrete inputs. -/
theorem C1_read_after_init_witness :
    (readProduct (initProduct stub0 ["p1", "Widget", "Steel", "Alice"]).2 ["p1"]).1 =
      Response.success (some (Payload.stored (StateVal.json
        { objectType := "product", puid := "p1", pname := goToLower "Widget",
          ptype := goToLower "Steel", owner := goToLower "Alice" }))) :=
  C1_read_after_init stub0 "p1" "Widget" "Steel" "Alice"
    (by decide) (by decide) (by decide) (by decide) rfl

/-- Claim C2: a second initProduct under an id that already holds a record
fails with the already-exists message and changes nothing at all.  A
record stored under an id presupposes a successful creation, which
requires the id to be non-empty. -/
theorem C2_duplicate_init (stub : Stub) (id name typ own : String) (v : StateVal)
    (hid : id ≠ "") (hname : name ≠ "") (htyp : typ ≠ "") (hown : own ≠ "")
    (hstored : stub.state (Key.simple id) = some v) :
    initProduct stub [id, name, typ, own] =
      (Response.error ("This product already exists: " ++ id), stub) := by
  simp [initProduct, initProductF, hid, hname, htyp, hown, hstored]

/-- Witness for C2 at concrete inputs. -/
theorem C2_duplicate_init_witness :
    initProduct stub1 ["p1", "Widget", "Steel", "Alice"] =
      (Response.error ("This product already exists: " ++ "p1"), stub1) :=
  C2_duplicate_init stub1 "p1" "Widget" "Steel" "Alice" (StateVal.json pA)
    (by decide) (by decide) (by decide) (by decide) rfl

/-- Claim C3: transferProduct of an id with no stored record fails, for
every newOwner, and leaves the stub unchanged. -/
theorem C3_transfer_missing (stub : Stub) (id newOwner : String)
    (h : stub.state (Key.simple id) = none) :
    transferProduct stub [id, newOwner] =
      (Response.error "Product does not exist", stub) := by
  simp [transferProduct, h]

/-- Witness for C3 at concrete inputs. -/
theorem C3_transfer_missing_witness :
    transferProduct stub0 ["p1", "Bob"] =
      (Response.error "Product does not exist", stub0) :=
  C3_transfer_missing stub0 "p1" "Bob" rfl

/-- Claim C4: transferProduct of an id whose stored value is a JSON
product record succeeds, rewrites the record under that id with owner set
to the lower-cased newOwner and docType, puid, pname, ptype unchanged,
and writes no other key. -/
theorem C4_transfer_updates_owner_only (stub : Stub) (id newOwner : String)
    (p : product) (hstored : stub.state (Key.simple id) = some (StateVal.json p)) :
    (transferProduct stub [id, newOwner]).1 = Response.success none ∧
    (transferProduct stub [id, newOwner]).2.state (Key.simple id) =
      some (StateVal.json
        ⟨p.objectType, p.puid, p.pname, p.ptype, goToLower newOwner⟩) ∧
    (∀ k, k ≠ Key.simple id →
      (transferProduct stub [id, newOwner]).2.state k = stub.state k) := by
  refine ⟨?_, ?_, ?_⟩
  · simp [transferProduct, hstored]
  · simp [transferProduct, hstored, putState]
  · intro k hk
    simp [transferProduct, hstored, putState, hk]

/-- Witness for C4 at concrete inputs. -/
theorem C4_transfer_updates_owner_only_witness :
    (transferProduct stub1 ["p1", "Bob"]).1 = Response.success none ∧
    (transferProduct stub1 ["p1", "Bob"]).2.state (Key.simple "p1") =
      some (StateVal.json
        ⟨pA.objectType, pA.puid, pA.pname, pA.ptype, goToLower "Bob"⟩) ∧
    (∀ k, k ≠ Key.simple "p1" →
      (transferProduct stub1 ["p1", "Bob"]).2.state k = stub1.state k) :=
  C4_transfer_updates_owner_only stub1 "p1" "Bob" pA rfl

/-- Claim C5 counterexample: transferProduct called with three arguments,
one more than its declared arity of 2, does not fail: it succeeds and
writes state. -/
theorem C5_counterexample :
    (transferProduct stub1 ["p1", "Bob", "extra"]).1 = Response.success none ∧
    (transferProduct stub1 ["p1", "Bob", "extra"]).2.state (Key.simple "p1") =
      some (StateVal.json ⟨"product", "p1", "widget", "10", "bob"⟩) := by
  exact ⟨rfl, rfl⟩

/-- Claim C5 as amended: initProduct and readProduct enforce their exact
arity and leave the stub unchanged on a violation; transferProduct,
queryProduct and getHistoryForProduct enforce only a lower bound (fewer
than 2, 1 and 1 arguments respectively fail) and ignore surplus arguments
beyond their declared arity. -/
theorem C5_amended_arity :
    (∀ (stub : Stub) (args : List String), args.length ≠ 4 →
        initProduct stub args =
          (Response.error "Incorrect number of arguments. Expecting 4", stub)) ∧
    (∀ (stub : Stub) (args : List String), args.length ≠ 1 →
        readProduct stub args =
          (Response.error "Incorrect number of arguments. Expecting product ID of the product to query", stub)) ∧
    (∀ (stub : Stub) (args : List String), args.length < 2 →
        transferProduct stub args =
          (Response.error "Incorrect number of arguments. Expecting 2", stub)) ∧
    (∀ (stub : Stub) (a b : String) (rest : List String),
        transferProduct stub (a :: b :: rest) = transferProduct stub [a, b]) ∧
    (∀ (stub : Stub) (args : List String), args.length < 1 →
        queryProduct stub args =
          (Response.error "Incorrect number of arguments. Expecting 1", stub)) ∧
    (∀ (stub : Stub) (a : String) (rest : List String),
        queryProduct stub (a :: rest) = queryProduct stub [a]) ∧
    (∀ (stub : Stub) (args : List String), args.length < 1 →
        getHistoryForProduct stub args =
          (Response.error "Incorrect number of arguments. Expecting 1", stub)) ∧
    (∀ (stub : Stub) (a : String) (rest : List String),
        getHistoryForProduct stub (a :: rest) = getHistoryForProduct stub [a]) := by
  refine ⟨?_, ?_, ?_, ?_, ?_, ?_, ?_, ?_⟩
  · intro stub args h
    rcases args with _ | ⟨a, _ | ⟨b, _ | ⟨c, _ | ⟨d, _ | ⟨e, rest⟩⟩⟩⟩⟩ <;>
      first
        | rfl
        | exact absurd rfl h
  · intro stub args h
    rcases args with _ | ⟨a, _ | ⟨b, rest⟩⟩ <;>
      first
        | rfl
        | exact absurd rfl h
  · intro stub args h
    rcases args with _ | ⟨a, _ | ⟨b, rest⟩⟩ <;>
      simp_all [transferProduct]
  · intro stub a b rest
    simp [transferProduct]
  · intro stub args h
    rcases args with _ | ⟨a, rest⟩ <;> simp_all [queryProduct]
  · intro stub a rest
    simp [queryProduct]
  · intro stub args h
    rcases args with _ | ⟨a, rest⟩ <;> simp_all [getHistoryForProduct]
  · intro stub a rest
    simp [getHistoryForProduct]

/-- Witness for the amended C5 at concrete inputs. -/
theorem C5_amended_arity_witness :
    initProduct stub0 ["a", "b"] =
      (Response.error "Incorrect number of arguments. Expecting 4", stub0) ∧
    readProduct stub0 [] =
      (Response.error "Incorrect number of arguments. Expecting product ID of the product to query", stub0) ∧
    transferProduct stub0 ["a"] =
      (Response.error "Incorrect number of arguments. Expecting 2", stub0) ∧
    transferProduct stub1 ["p1", "Bob", "extra"] = transferProduct stub1 ["p1", "Bob"] ∧
    queryProduct stub0 [] =
      (Response.error "Incorrect number of arguments. Expecting 1", stub0) ∧
    queryProduct stub0 ["q", "extra"] = queryProduct stub0 ["q"] ∧
    getHistoryForProduct stub0 [] =
      (Response.error "Incorrect number of arguments. Expecting 1", stub0) ∧
    getHistoryForProduct stub0 ["p1", "extra"] = getHistoryForProduct stub0 ["p1"] := by
  refine ⟨?_, ?_, ?_, ?_, ?_, ?_, ?_, ?_⟩
  · exact C5_amended_arity.1 stub0 ["a", "b"] (by decide)
  · exact C5_amended_arity.2.1 stub0 [] (by decide)
  · exact C5_amended_arity.2.2.1 stub0 ["a"] (by decide)
  · exact C5_amended_arity.2.2.2.1 stub1 "p1" "Bob" ["extra"]
  · exact C5_amended_arity.2.2.2.2.1 stub0 [] (by decide)
  · exact C5_amended_arity.2.2.2.2.2.1 stub0 "q" ["extra"]
  · exact C5_amended_arity.2.2.2.2.2.2.1 stub0 [] (by decide)
  · exact C5_amended_arity.2.2.2.2.2.2.2 stub0 "p1" ["extra"]

/-- Claim C6 counterexample: transferProduct with an empty newOwner does
not fail: it succeeds and stores the empty string as the owner, changing
the world state. -/
theorem C6_counterexample :
    (transferProduct stub1 ["p1", ""]).1 = Response.success none ∧
    (transferProduct stub1 ["p1", ""]).2.state (Key.simple "p1") =
      some (StateVal.json ⟨"product", "p1", "widget", "10", ""⟩) := by
  exact ⟨rfl, rfl⟩

/-- Claim C6 as amended: only initProduct checks its arguments for
emptiness, failing with a message naming the first empty one of its four
arguments and leaving the stub unchanged; transferProduct performs no
emptiness check, and with an empty newOwner it succeeds on a stored JSON
record and writes the empty string as the owner. -/
theorem C6_amended_empty_args :
    (∀ (stub : Stub) (name typ own : String),
        initProduct stub ["", name, typ, own] =
          (Response.error "1st argument must be a non-empty string", stub)) ∧
    (∀ (stub : Stub) (id typ own : String), id ≠ "" →
        initProduct stub [id, "", typ, own] =
          (Response.error "2nd argument must be a non-empty string", stub)) ∧
    (∀ (stub : Stub) (id name own : String), id ≠ "" → name ≠ "" →
        initProduct stub [id, name, "", own] =
          (Response.error "3rd argument must be a non-empty string", stub)) ∧
    (∀ (stub : Stub) (id name typ : String), id ≠ "" → name ≠ "" → typ ≠ "" →
        initProduct stub [id, name, typ, ""] =
          (Response.error "4th argument must be a non-empty string", stub)) ∧
    (∀ (stub : Stub) (id : String) (p : product),
        stub.state (Key.simple id) = some (StateVal.json p) →
        (transferProduct stub [id, ""]).1 = Response.success none ∧
        (transferProduct stub [id, ""]).2.state (Key.simple id) =
          some (StateVal.json ⟨p.objectType, p.puid, p.pname, p.ptype, ""⟩)) := by
  refine ⟨?_, ?_, ?_, ?_, ?_⟩
  · intro stub name typ own
    simp [initProduct, initProductF]
  · intro stub id typ own hid
    simp [initProduct, initProductF, hid]
  · intro stub id name own hid hname
    simp [initProduct, initProductF, hid, hname]
  · intro stub id name typ hid hname htyp
    simp [initProduct, initProductF, hid, hname, htyp]
  · intro stub id p hstored
    constructor
    · simp [transferProduct, hstored]
    · have hempty : goToLower "" = "" := rfl
      simp [transferProduct, hstored, putState, hempty]

/-- Witness for the amended C6 at concrete inputs. -/
theorem C6_amended_empty_args_witness :
    initProduct stub0 ["", "b", "c", "d"] =
      (Response.error "1st argument must be a non-empty string", stub0) ∧
    initProduct stub0 ["a", "", "c", "d"] =
      (Response.error "2nd argument must be a non-empty string", stub0) ∧
    initProduct stub0 ["a", "b", "", "d"] =
      (Response.error "3rd argument must be a non-empty string", stub0) ∧
    initProduct stub0 ["a", "b", "c", ""] =
      (Response.error "4th argument must be a non-empty string", stub0) ∧
    ((transferProduct stub1 ["p1", ""]).1 = Response.success none ∧
      (transferProduct stub1 ["p1", ""]).2.state (Key.simple "p1") =
        some (StateVal.json ⟨pA.objectType, pA.puid, pA.pname, pA.ptype, ""⟩)) := by
  refine ⟨?_, ?_, ?_, ?_, ?_⟩
  · exact C6_amended_empty_args.1 stub0 "b" "c" "d"
  · exact C6_amended_empty_args.2.1 stub0 "a" "c" "d" (by decide)
  · exact C6_amended_empty_args.2.2.1 stub0 "a" "b" "d" (by decide) (by decide)
  · exact C6_amended_empty_args.2.2.2.1 stub0 "a" "b" "c"
      (by decide) (by decide) (by decide)
  · exact C6_amended_empty_args.2.2.2.2 stub1 "p1" pA rfl

/-- Claim C7: on a fresh non-empty id with non-empty name, type and owner,
initProduct succeeds and writes exactly two keys: the JSON product record
under the simple id key, and the composite index key type~name over the
lower-cased type and name, holding the sentinel; every other key is
untouched. -/
theorem C7_init_writes_two_keys (stub : Stub) (id name typ own : String)
    (hid : id ≠ "") (hname : name ≠ "") (htyp : typ ≠ "") (hown : own ≠ "")
    (hfresh : stub.state (Key.simple id) = none) :
    (initProduct stub [id, name, typ, own]).1 = Response.success none ∧
    (initProduct stub [id, name, typ, own]).2.state (Key.simple id) =
      some (StateVal.json
        ⟨"product", id, goToLower name, goToLower typ, goToLower own⟩) ∧
    (initProduct stub [id, name, typ, own]).2.state
        (Key.composite "type~name" [goToLower typ, goToLower name]) =
      some StateVal.sentinel ∧
    (∀ k, k ≠ Key.simple id →
        k ≠ Key.composite "type~name" [goToLower typ, goToLower name] →
        (initProduct stub [id, name, typ, own]).2.state k = stub.state k) := by
  refine ⟨?_, ?_, ?_, ?_⟩
  · simp [initProduct, initProductF, hid, hname, htyp, hown, hfresh, putStateF]
  · simp [initProduct, initProductF, hid, hname, htyp, hown, hfresh, putStateF,
      putState]
  · simp [initProduct, initProductF, hid, hname, htyp, hown, hfresh, putStateF,
      putState]
  · intro k hk1 hk2
    simp [initProduct, initProductF, hid, hname, htyp, hown, hfresh, putStateF,
      putState, hk1, hk2]

/-- Witness for C7 at concrete inputs. -/
theorem C7_init_writes_two_keys_witness :
    (initProduct stub0 ["p1", "Widget", "Steel", "Alice"]).1 = Response.success none ∧
    (initProduct stub0 ["p1", "Widget", "Steel", "Alice"]).2.state (Key.simple "p1") =
      some (StateVal.json
        ⟨"product", "p1", goToLower "Widget", goToLower "Steel", goToLower "Alice"⟩) ∧
    (initProduct stub0 ["p1", "Widget", "Steel", "Alice"]).2.state
        (Key.composite "type~name" [goToLower "Steel", goToLower "Widget"]) =
      some StateVal.sentinel ∧
    (∀ k, k ≠ Key.simple "p1" →
        k ≠ Key.composite "type~name" [goToLower "Steel", goToLower "Widget"] →
        (initProduct stub0 ["p1", "Widget", "Steel", "Alice"]).2.state k =
          stub0.state k) :=
  C7_init_writes_two_keys stub0 "p1" "Widget" "Steel" "Alice"
    (by decide) (by decide) (by decide) (by decide) rfl

/-- Claim C8: for n at least 1, the n-th invocation produced by the
driver run() is an initProduct call whose identifier is the pool entry at
index n mod 4, whose owner is the owner pool entry at index n mod 4, and
whose type string renders ((n mod 10) + 1) * 10, a value between 10 and
100. -/
theorem C8_driver_run (n pid : Nat) (h : 1 ≤ n) :
    (runInvocation n pid).chaincodeFunction = "initProduct" ∧
    (runInvocation n pid).chaincodeArguments =
      [ID.getD (n % 4) "",
       "product_" ++ toString n ++ "_" ++ toString pid,
       toString (((n % 10) + 1) * 10),
       owners.getD (n % 4) ""] ∧
    10 ≤ ((n % 10) + 1) * 10 ∧ ((n % 10) + 1) * 10 ≤ 100 := by
  refine ⟨rfl, ?_, ?_, ?_⟩
  · simp [runInvocation, ID, owners]
  · omega
  · have hlt : n % 10 < 10 := Nat.mod_lt n (by decide)
    omega

/-- Witness for C8 at the first call with pid 7. -/
theorem C8_driver_run_witness :
    (runInvocation 1 7).chaincodeFunction = "initProduct" ∧
    (runInvocation 1 7).chaincodeArguments =
      [ID.getD (1 % 4) "",
       "product_" ++ toString 1 ++ "_" ++ toString 7,
       toString (((1 % 10) + 1) * 10),
       owners.getD (1 % 4) ""] ∧
    10 ≤ ((1 % 10) + 1) * 10 ∧ ((1 % 10) + 1) * 10 ≤ 100 :=
  C8_driver_run 1 7 (by decide)

/-- Claim C9: Invoke on any function name other than the five of the
invocation surface fails with the unknown-function message and leaves the
stub unchanged. -/
theorem C9_unknown_function (stub : Stub) (fn : String) (args : List String)
    (h1 : fn ≠ "initProduct") (h2 : fn ≠ "transferProduct")
    (h3 : fn ≠ "readProduct") (h4 : fn ≠ "queryProduct")
    (h5 : fn ≠ "getHistoryForProduct") :
    Invoke stub fn args =
      (Response.error "Received unknown function invocation", stub) := by
  simp [Invoke, h1, h2, h3, h4, h5]

/-- Witness for C9 at a concrete unknown function name. -/
theorem C9_unknown_function_witness :
    Invoke stub0 "deleteProduct" [] =
      (Response.error "Received unknown function invocation", stub0) :=
  C9_unknown_function stub0 "deleteProduct" []
    (by decide) (by decide) (by decide) (by decide) (by decide)

/-- Claim C10: over a store whose PutState can fail, initProduct on a
fresh id still returns success when exactly the write of the composite
index key fails, because the source discards the result of that second
PutState; the product record is written but the index entry is not. -/
theorem C10_index_write_error_discarded (stub : Stub)
    (id name typ own msg : String) (pf : Key → Option String)
    (hid : id ≠ "") (hname : name ≠ "") (htyp : typ ≠ "") (hown : own ≠ "")
    (hfresh : stub.state (Key.simple id) = none)
    (hpf1 : pf (Key.simple id) = none)
    (hpf2 : pf (Key.composite "type~name" [goToLower typ, goToLower name]) =
      some msg) :
    (initProductF pf stub [id, name, typ, own]).1 = Response.success none ∧
    (initProductF pf stub [id, name, typ, own]).2.state (Key.simple id) =
      some (StateVal.json
        ⟨"product", id, goToLower name, goToLower typ, goToLower own⟩) ∧
    (initProductF pf stub [id, name, typ, own]).2.state
        (Key.composite "type~name" [goToLower typ, goToLower name]) =
      stub.state (Key.composite "type~name" [goToLower typ, goToLower name]) := by
  refine ⟨?_, ?_, ?_⟩
  · simp [initProductF, hid, hname, htyp, hown, hfresh, putStateF, hpf1, hpf2]
  · simp [initProductF, hid, hname, htyp, hown, hfresh, putStateF, hpf1, hpf2,
      putState]
  · simp [initProductF, hid, hname, htyp, hown, hfresh, putStateF, hpf1, hpf2,
      putState]

/-- Witness for C10: with pfIdx refusing exactly the steel-widget index
key, creating a steel widget succeeds while the index entry stays
absent. -/
theorem C10_index_write_error_discarded_witness :
    (initProductF pfIdx stub0 ["p1", "Widget", "Steel", "Alice"]).1 =
      Response.success none ∧
    (initProductF pfIdx stub0 ["p1", "Widget", "Steel", "Alice"]).2.state
        (Key.simple "p1") =
      some (StateVal.json
        ⟨"product", "p1", goToLower "Widget", goToLower "Steel", goToLower "Alice"⟩) ∧
    (initProductF pfIdx stub0 ["p1", "Widget", "Steel", "Alice"]).2.state
        (Key.composite "type~name" [goToLower "Steel", goToLower "Widget"]) =
      stub0.state (Key.composite "type~name" [goToLower "Steel", goToLower "Widget"]) :=
  C10_index_write_error_discarded stub0 "p1" "Widget" "Steel" "Alice"
    "index write refused" pfIdx
    (by decide) (by decide) (by decide) (by decide) rfl rfl (by decide)
